import Mathlib

/-!
Shallow embedding of the client-side store layer of the movie-explorer
application (src/src/App.js): the `MovieProvider` catalog store, the
`AuthProvider` session store, and the favorites collection, together with
the view-layer search entry point `handleSearch`.

Modelling conventions:
* React `useState` cells become fields of explicit state records
  (`CatalogState`, `AuthState`); each store operation is a pure function
  from state (plus the response of the provider) to state.
* A network request is represented by a `FetchResult` argument: the
  outcome the transport would deliver (success payload or the message of
  the thrown error).  `try`/`catch`/`finally` blocks become pattern
  matches, with the `finally` updates applied on both branches.
* `localStorage` is the `storage` field of `AuthState`; a page reload
  resets the in-memory component state but keeps `storage`.
* Timing (the 500 ms login delay, request latency) is not modelled;
  operations are taken to completion atomically, matching the single-logical-thread view of the spec.
-/

/-- The movie summary record produced by the list endpoints of the provider.
The store logic reads only `id` (favorites are keyed by `movie.id`);
the remaining fields are carried as data. -/
structure MovieSummary where
  id : Int
  title : String
  posterPath : Option String
  releaseDate : String
  deriving Repr, DecidableEq

/-- The richer record returned by the detail endpoint
(`/movie/{id}?append_to_response=videos,credits`).  The store returns it
to the caller unchanged, so only representative fields are carried. -/
structure MovieDetail where
  id : Int
  title : String
  runtime : Nat
  overview : String
  deriving Repr, DecidableEq

/-- Outcome of one HTTP request as seen by the store: the parsed payload
on success, or the message of the error thrown by the transport. -/
inductive FetchResult (α : Type) where
  | ok : α → FetchResult α
  | err : String → FetchResult α
  deriving Repr, DecidableEq

/-- The `useState` cells of `MovieProvider` (App.js lines 226-232).
`movies` is the search-results list, `error` the `lastError` slot. -/
structure CatalogState where
  movies : List MovieSummary
  trendingMovies : List MovieSummary
  searchQuery : String
  isLoading : Bool
  error : Option String
  favorites : List MovieSummary
  searchHistory : List String
  deriving Repr, DecidableEq

/-- The initial catalog state: every `useState` initializer of
`MovieProvider`. -/
def initialCatalog : CatalogState :=
  { movies := []
    trendingMovies := []
    searchQuery := ""
    isLoading := false
    error := none
    favorites := []
    searchHistory := [] }

/-- `[...new Set(xs)]` in JavaScript: removes duplicates keeping the
first occurrence of each element, in insertion order. -/
def jsSetDedup : List String → List String
  | [] => []
  | x :: xs => x :: jsSetDedup (xs.filter (fun y => y != x))
termination_by l => l.length
decreasing_by
  simp only [List.length_cons]
  exact Nat.lt_succ_of_le (List.length_filter_le _ _)

/-- `searchMovies` (App.js lines 259-273).  Inside `try`: set
`isLoading` true, set `searchQuery` to the query, await the GET; on
success store `response.data.results` in `movies` and append the query
to `searchHistory` through `[...new Set(...)]`; the `catch` stores
`err.message` in `error`; the `finally` clears `isLoading` on both
paths.  Note `setSearchQuery(query)` runs before the await, so it takes
effect on the failure path too. -/
def searchMovies (s : CatalogState) (query : String)
    (result : FetchResult (List MovieSummary)) : CatalogState :=
  let s1 := { s with isLoading := true, searchQuery := query }
  match result with
  | .ok results =>
      { s1 with
          movies := results
          searchHistory := jsSetDedup (s1.searchHistory ++ [query])
          isLoading := false }
  | .err msg =>
      { s1 with error := some msg, isLoading := false }

/-- `clearSearch` (App.js lines 275-278): empties `searchQuery` and
`movies`, touching nothing else. -/
def clearSearch (s : CatalogState) : CatalogState :=
  { s with searchQuery := "", movies := [] }

/-- The updater closure passed to `setFavorites` by `toggleFavorite`
(App.js lines 281-288): if some favorite has the id of the movie, drop
every entry with that id; otherwise append the movie. -/
def toggleFavoriteList (prev : List MovieSummary) (movie : MovieSummary) : List MovieSummary :=
  if prev.any (fun fav => fav.id == movie.id) then
    prev.filter (fun fav => fav.id != movie.id)
  else
    prev ++ [movie]

/-- `toggleFavorite` (App.js lines 280-289): applies the updater above
to the favorites cell and touches nothing else. -/
def toggleFavorite (s : CatalogState) (movie : MovieSummary) : CatalogState :=
  { s with favorites := toggleFavoriteList s.favorites movie }

/-- `fetchMovieDetails` (App.js lines 245-257): sets `isLoading` during
the call; on success returns `response.data`; the `catch` re-throws
a new error with the fixed message `Failed to fetch movie details` — the exception leaves the
store and `error` is NOT written; `finally` clears `isLoading`.  The
second component is what the caller receives: the detail object or the
propagated exception. -/
def fetchMovieDetails (s : CatalogState)
    (result : FetchResult MovieDetail) : CatalogState × Except String MovieDetail :=
  let s1 := { s with isLoading := true }
  match result with
  | .ok data => ({ s1 with isLoading := false }, Except.ok data)
  | .err _ =>
      ({ s1 with isLoading := false }, Except.error "Failed to fetch movie details")

/-- `fetchTrendingMovies` (App.js lines 234-243): returns
`response.data.results`, or rethrows the fixed message
`Failed to fetch trending movies` on any transport failure. -/
def fetchTrendingMovies
    (result : FetchResult (List MovieSummary)) : Except String (List MovieSummary) :=
  match result with
  | .ok rs => Except.ok rs
  | .err _ => Except.error "Failed to fetch trending movies"

/-- The `loadData` effect of `MovieProvider` (App.js lines 291-304): the
initial trending load.  Sets `isLoading`, awaits `fetchTrendingMovies`;
on success stores the results in `trendingMovies`; the `catch` stores
`err.message` (the fixed trending message) in `error`; `finally` clears
`isLoading`. -/
def loadData (s : CatalogState)
    (result : FetchResult (List MovieSummary)) : CatalogState :=
  let s1 := { s with isLoading := true }
  match fetchTrendingMovies result with
  | .ok data => { s1 with trendingMovies := data, isLoading := false }
  | .error msg => { s1 with error := some msg, isLoading := false }

/-- The JavaScript `String.prototype.trim`: strips whitespace from both
ends of the string. -/
def jsTrim (s : String) : String :=
  String.mk (((s.data.dropWhile Char.isWhitespace).reverse.dropWhile
    Char.isWhitespace).reverse)

/-- `handleSearch` in the `Home` component (App.js lines 703-708): the
search entry point.  `if (searchInput.trim())` — only a query whose trim
is non-empty (truthy) reaches `searchMovies`; otherwise nothing happens
and no request is issued. -/
def handleSearch (s : CatalogState) (searchInput : String)
    (result : FetchResult (List MovieSummary)) : CatalogState :=
  if jsTrim searchInput ≠ "" then searchMovies s searchInput result else s

/-- One completed catalog-store operation, with the provider outcome it
observed where one is involved. -/
inductive CatalogOp where
  | search (query : String) (result : FetchResult (List MovieSummary))
  | clear
  | toggle (movie : MovieSummary)
  | detail (result : FetchResult MovieDetail)
  | trending (result : FetchResult (List MovieSummary))
  deriving Repr

/-- Apply one completed catalog operation to the state. -/
def applyOp (s : CatalogState) : CatalogOp → CatalogState
  | .search q r => searchMovies s q r
  | .clear => clearSearch s
  | .toggle m => toggleFavorite s m
  | .detail r => (fetchMovieDetails s r).1
  | .trending r => loadData s r

/-- Run a sequence of completed catalog operations from a state. -/
def runOps (s : CatalogState) (ops : List CatalogOp) : CatalogState :=
  ops.foldl applyOp s

/-- The `useState` cells of `AuthProvider` (App.js lines 174-177)
together with the `localStorage` key `user` (the durable storage the
session store reads and writes). -/
structure AuthState where
  user : Option String
  showAuthModal : Bool
  authMode : String
  storage : Option String
  deriving Repr, DecidableEq

/-- The initial in-memory state of `AuthProvider`, with empty durable storage. -/
def initialAuth : AuthState :=
  { user := none, showAuthModal := false, authMode := "login", storage := none }

/-- `login` (App.js lines 179-188): after the artificial delay, sets
`user` to the username, writes it to `localStorage`, and closes the
auth modal.  The password is accepted unchecked. -/
def login (s : AuthState) (username : String) (_password : String) : AuthState :=
  { s with user := some username, storage := some username, showAuthModal := false }

/-- `logout` (App.js lines 190-193): clears `user` in memory and removes
the `localStorage` key. -/
def logout (s : AuthState) : AuthState :=
  { s with user := none, storage := none }

/-- The restore effect of `AuthProvider` (App.js lines 200-203):
it reads the stored `user` key and, when the value is truthy, sets `user` to it.
`getItem` yields `null` (here `none`) when the key is absent; the `if`
tests JavaScript truthiness, so the empty string is also rejected. -/
def restoreSession (s : AuthState) : AuthState :=
  match s.storage with
  | some storedUser => if storedUser ≠ "" then { s with user := some storedUser } else s
  | none => s

/-- A page reload: component state is re-created from its initializers
while `localStorage` survives. -/
def reload (s : AuthState) : AuthState :=
  { initialAuth with storage := s.storage }

/-- The whole application state: session store plus catalog store
(favorites live inside `MovieProvider`, App.js lines 226-232, and are
not keyed by the session). -/
structure AppState where
  auth : AuthState
  catalog : CatalogState
  deriving Repr, DecidableEq

/-- `logout` lifted to the application state: it is an `AuthProvider`
callback and touches no `MovieProvider` cell. -/
def appLogout (s : AppState) : AppState :=
  { s with auth := logout s.auth }

/-- `login` lifted to the application state. -/
def appLogin (s : AppState) (username password : String) : AppState :=
  { s with auth := login s.auth username password }

/-!
Helper lemmas about the JavaScript-set deduplication and the operation
sequences, shared by the claim theorems below.
-/

/-- Membership is preserved by `[...new Set(...)]`. -/
theorem mem_jsSetDedup (a : String) (l : List String) :
    a ∈ jsSetDedup l ↔ a ∈ l := by
  induction l using jsSetDedup.induct with
  | case1 => simp [jsSetDedup]
  | case2 x xs ih =>
    rw [jsSetDedup]
    simp only [List.mem_cons, ih, List.mem_filter, bne_iff_ne, ne_eq, decide_eq_true_eq]
    constructor
    · rintro (rfl | ⟨h, _⟩)
      · exact Or.inl rfl
      · exact Or.inr h
    · rintro (rfl | h)
      · exact Or.inl rfl
      · by_cases hax : a = x
        · exact Or.inl hax
        · exact Or.inr ⟨h, hax⟩

/-- The output of `[...new Set(...)]` has no duplicates. -/
theorem jsSetDedup_nodup (l : List String) : (jsSetDedup l).Nodup := by
  induction l using jsSetDedup.induct with
  | case1 => simp [jsSetDedup]
  | case2 x xs ih =>
    rw [jsSetDedup]
    refine List.nodup_cons.mpr ⟨?_, ih⟩
    intro hmem
    rw [mem_jsSetDedup] at hmem
    simp [List.mem_filter] at hmem

/-- A state predicate preserved by every single catalog operation is
preserved by every sequence of operations. -/
theorem runOps_invariant (P : CatalogState → Prop)
    (hstep : ∀ s op, P s → P (applyOp s op)) :
    ∀ (ops : List CatalogOp) (s : CatalogState), P s → P (runOps s ops) := by
  intro ops
  induction ops with
  | nil => intro s hs; simpa [runOps] using hs
  | cons op rest ih =>
    intro s hs
    simpa [runOps] using ih (applyOp s op) (hstep s op hs)

/-- Every operation keeps `searchHistory` duplicate-free. -/
theorem applyOp_searchHistory_nodup (s : CatalogState) (op : CatalogOp)
    (h : s.searchHistory.Nodup) : ((applyOp s op).searchHistory).Nodup := by
  cases op with
  | search q r =>
    cases r with
    | ok rs => exact jsSetDedup_nodup _
    | err msg => exact h
  | clear => exact h
  | toggle m => exact h
  | detail r => cases r <;> exact h
  | trending r => cases r <;> exact h

/-- Every completed operation leaves `isLoading` false (fetching
operations reset it in `finally`; the others do not touch it). -/
theorem applyOp_isLoading (s : CatalogState) (op : CatalogOp)
    (h : s.isLoading = false) : (applyOp s op).isLoading = false := by
  cases op with
  | search q r => cases r <;> rfl
  | clear => exact h
  | toggle m => exact h
  | detail r => cases r <;> rfl
  | trending r => cases r <;> rfl

/-- Shape of a double toggle on the same movie: when no favorite carries
the id of the movie the list is restored exactly; when one does, the
double toggle removes every entry with that id and re-appends the movie
at the end. -/
theorem toggleFavoriteList_twice_cases (l : List MovieSummary) (m : MovieSummary) :
    (l.any (fun fav => fav.id == m.id) = false ∧
        toggleFavoriteList (toggleFavoriteList l m) m = l) ∨
    (l.any (fun fav => fav.id == m.id) = true ∧
        toggleFavoriteList (toggleFavoriteList l m) m
          = l.filter (fun fav => fav.id != m.id) ++ [m]) := by
  cases hany : l.any (fun fav => fav.id == m.id) with
  | false =>
    left
    refine ⟨rfl, ?_⟩
    have hall : ∀ x ∈ l, x.id ≠ m.id := by
      intro x hx
      have := List.any_eq_false.mp hany x hx
      simpa using this
    have h1 : toggleFavoriteList l m = l ++ [m] := by
      simp [toggleFavoriteList, hany]
    have hany2 : (l ++ [m]).any (fun fav => fav.id == m.id) = true := by
      simp [List.any_append]
    rw [h1, toggleFavoriteList, if_pos hany2, List.filter_append]
    have h2 : [m].filter (fun fav => fav.id != m.id) = [] := by
      simp
    have h3 : l.filter (fun fav => fav.id != m.id) = l := by
      rw [List.filter_eq_self]
      intro x hx
      simpa using hall x hx
    rw [h2, h3, List.append_nil]
  | true =>
    right
    refine ⟨rfl, ?_⟩
    have h1 : toggleFavoriteList l m = l.filter (fun fav => fav.id != m.id) := by
      simp [toggleFavoriteList, hany]
    have hany2 :
        (l.filter (fun fav => fav.id != m.id)).any (fun fav => fav.id == m.id) = false := by
      rw [List.any_eq_false]
      intro x hx
      have := (List.mem_filter.mp hx).2
      simp at this
      simpa using this
    rw [h1, toggleFavoriteList, if_neg (by simp [hany2])]

/-!
Claim theorems.
-/

/-- C1: calling search with an empty or whitespace-only query is
rejected by the search entry point (`handleSearch` guards with
`searchInput.trim()`) and mutates nothing: the catalog state after the
call — in particular `searchQuery`, `movies` (the search results) and
`isLoading` — equals the state before it. -/
theorem blank_search_rejected (s : CatalogState) (input : String)
    (r : FetchResult (List MovieSummary)) (h : jsTrim input = "") :
    handleSearch s input r = s := by
  simp [handleSearch, h]

/-- Witness for `blank_search_rejected` at the whitespace-only query.  -/
theorem blank_search_rejected_witness :
    jsTrim "   " = "" ∧
      handleSearch initialCatalog "   " (.err "Network Error") = initialCatalog :=
  ⟨rfl, blank_search_rejected initialCatalog "   " (.err "Network Error") rfl⟩

/-- C5: for a non-empty query, a successful search followed by
`clearSearch` leaves `searchQuery` empty and `movies` empty, while the
query is still in `searchHistory`; `clearSearch` leaves `searchHistory`
exactly as the search left it. -/
theorem search_then_clearSearch (s : CatalogState) (q : String)
    (rs : List MovieSummary) (hq : q ≠ "") :
    (clearSearch (searchMovies s q (.ok rs))).searchQuery = "" ∧
    (clearSearch (searchMovies s q (.ok rs))).movies = [] ∧
    q ∈ (clearSearch (searchMovies s q (.ok rs))).searchHistory ∧
    (clearSearch (searchMovies s q (.ok rs))).searchHistory
      = (searchMovies s q (.ok rs)).searchHistory := by
  refine ⟨rfl, rfl, ?_, rfl⟩
  show q ∈ jsSetDedup (s.searchHistory ++ [q])
  rw [mem_jsSetDedup]
  simp

/-- Witness for `search_then_clearSearch` at a concrete query. -/
theorem search_then_clearSearch_witness :
    (clearSearch (searchMovies initialCatalog "inception" (.ok []))).searchQuery = "" ∧
    (clearSearch (searchMovies initialCatalog "inception" (.ok []))).movies = [] ∧
    "inception" ∈ (clearSearch (searchMovies initialCatalog "inception" (.ok []))).searchHistory ∧
    (clearSearch (searchMovies initialCatalog "inception" (.ok []))).searchHistory
      = (searchMovies initialCatalog "inception" (.ok [])).searchHistory :=
  search_then_clearSearch initialCatalog "inception" [] (by decide)

/-- C6: a failing trending load leaves `trendingMovies` at its pre-call
value, sets `error` to the fixed non-empty message, and modifies no
catalog field other than `error` and `isLoading` (which ends false). -/
theorem loadTrending_failure (s : CatalogState) (msg : String) :
    (loadData s (.err msg)).trendingMovies = s.trendingMovies ∧
    (loadData s (.err msg)).error = some "Failed to fetch trending movies" ∧
    "Failed to fetch trending movies" ≠ "" ∧
    (loadData s (.err msg)).isLoading = false ∧
    (loadData s (.err msg)).movies = s.movies ∧
    (loadData s (.err msg)).searchQuery = s.searchQuery ∧
    (loadData s (.err msg)).favorites = s.favorites ∧
    (loadData s (.err msg)).searchHistory = s.searchHistory :=
  ⟨rfl, rfl, by decide, rfl, rfl, rfl, rfl, rfl⟩

/-- C8: after any sequence of completed catalog operations from the
initial state, `searchHistory` holds every query at most once. -/
theorem searchHistory_no_duplicates (ops : List CatalogOp) :
    ((runOps initialCatalog ops).searchHistory).Nodup :=
  runOps_invariant (fun s => s.searchHistory.Nodup)
    applyOp_searchHistory_nodup ops initialCatalog List.nodup_nil

/-- C9: every catalog operation — search, detail fetch, trending load —
ends with `isLoading` false whatever the provider outcome, and along any
sequence of completed operations from the initial state `isLoading` is
false (it is raised only inside an operation, i.e. while one is in
flight). -/
theorem isLoading_false_after_completion (s : CatalogState) (q : String)
    (r1 : FetchResult (List MovieSummary)) (r2 : FetchResult MovieDetail)
    (r3 : FetchResult (List MovieSummary)) (ops : List CatalogOp) :
    (searchMovies s q r1).isLoading = false ∧
    (fetchMovieDetails s r2).1.isLoading = false ∧
    (loadData s r3).isLoading = false ∧
    (runOps initialCatalog ops).isLoading = false := by
  refine ⟨?_, ?_, ?_, ?_⟩
  · cases r1 <;> rfl
  · cases r2 <;> rfl
  · cases r3 <;> rfl
  · exact runOps_invariant (fun t => t.isLoading = false) applyOp_isLoading ops
      initialCatalog rfl

/-- C10: `logout` clears only the session identity, in memory and in
durable storage; every catalog field — favorites, search history, query,
results, trending, error — is untouched, the other auth cells keep
their values, and the favorites collection is still there after a
subsequent login of any identity. -/
theorem logout_frame (s : AppState) (u p : String) :
    (appLogout s).catalog = s.catalog ∧
    (appLogout s).auth.user = none ∧
    (appLogout s).auth.storage = none ∧
    (appLogout s).auth.showAuthModal = s.auth.showAuthModal ∧
    (appLogout s).auth.authMode = s.auth.authMode ∧
    (appLogin (appLogout s) u p).catalog = s.catalog ∧
    (appLogin (appLogout s) u p).catalog.favorites = s.catalog.favorites :=
  ⟨rfl, rfl, rfl, rfl, rfl, rfl, rfl⟩

/-- Sample movie used in concrete counterexamples and witnesses. -/
def movieA : MovieSummary := ⟨1, "Alpha", none, "2001-01-01"⟩

/-- A second sample movie with a different id. -/
def movieB : MovieSummary := ⟨2, "Beta", some "/b.jpg", "2002-02-02"⟩

/-- C2 counterexample: on provider failure, `searchMovies` has already
set `searchQuery` to the new query (the set runs before the await), so
`searchQuery` is NOT unchanged on failure as the claim states. -/
theorem search_failure_not_frame_counterexample :
    (searchMovies { initialCatalog with searchQuery := "old" } "new"
        (.err "Network Error")).searchQuery = "new" ∧ ("new" : String) ≠ "old" :=
  ⟨rfl, by decide⟩

/-- C2 (amended): on success a search stores the response results, sets
`searchQuery` to the query and appends the query to `searchHistory`
(set semantics); on failure it sets `error` AND `searchQuery` (which was
written before the request), leaves `movies` and `searchHistory`
unchanged, and mutates no catalog field other than `error`,
`searchQuery` and `isLoading`. -/
theorem searchMovies_success_failure (s : CatalogState) (q : String)
    (rs : List MovieSummary) (msg : String) (hq : q ≠ "") :
    (searchMovies s q (.ok rs)).movies = rs ∧
    (searchMovies s q (.ok rs)).searchQuery = q ∧
    (searchMovies s q (.ok rs)).searchHistory = jsSetDedup (s.searchHistory ++ [q]) ∧
    q ∈ (searchMovies s q (.ok rs)).searchHistory ∧
    (searchMovies s q (.ok rs)).trendingMovies = s.trendingMovies ∧
    (searchMovies s q (.ok rs)).favorites = s.favorites ∧
    (searchMovies s q (.ok rs)).error = s.error ∧
    (searchMovies s q (.err msg)).error = some msg ∧
    (searchMovies s q (.err msg)).searchQuery = q ∧
    (searchMovies s q (.err msg)).movies = s.movies ∧
    (searchMovies s q (.err msg)).searchHistory = s.searchHistory ∧
    (searchMovies s q (.err msg)).trendingMovies = s.trendingMovies ∧
    (searchMovies s q (.err msg)).favorites = s.favorites := by
  refine ⟨rfl, rfl, rfl, ?_, rfl, rfl, rfl, rfl, rfl, rfl, rfl, rfl, rfl⟩
  show q ∈ jsSetDedup (s.searchHistory ++ [q])
  rw [mem_jsSetDedup]
  simp

/-- Witness for `searchMovies_success_failure` at a concrete query. -/
theorem searchMovies_success_failure_witness :
    (searchMovies initialCatalog "batman" (.ok [movieA])).movies = [movieA] :=
  (searchMovies_success_failure initialCatalog "batman" [movieA] "Network Error"
    (by decide)).1

/-- C3 counterexample: a failing detail fetch hands the exception to the
caller (the view layer receives `Except.error`) and does not write the
`error` field of the store, so not every catalog failure is converted
into `lastError` inside the store. -/
theorem detail_failure_escapes_counterexample :
    (fetchMovieDetails initialCatalog (.err "Network Error")).2
        = Except.error "Failed to fetch movie details" ∧
    (fetchMovieDetails initialCatalog (.err "Network Error")).1.error = none :=
  ⟨rfl, rfl⟩

/-- C3 (amended): search failures and trending-load failures are caught
in the store and stored in `error`; a detail-fetch failure is caught and
re-thrown as a fixed-message exception that propagates to the caller,
leaving `error` untouched. -/
theorem store_failure_handling (s : CatalogState) (q msg : String)
    (r : FetchResult MovieDetail) :
    (searchMovies s q (.err msg)).error = some msg ∧
    (loadData s (.err msg)).error = some "Failed to fetch trending movies" ∧
    (fetchMovieDetails s (.err msg)).2 = Except.error "Failed to fetch movie details" ∧
    (fetchMovieDetails s (.err msg)).1.error = s.error ∧
    (fetchMovieDetails s r).1 = { s with isLoading := false } :=
  ⟨rfl, rfl, rfl, rfl, by cases r <;> rfl⟩

/-- C4 counterexample: double-toggling a movie that is already a
favorite (and not the last entry) restores membership but moves the
entry to the end, so the relative order of the remaining members is not
the original one. -/
theorem toggle_twice_order_counterexample :
    (toggleFavorite (toggleFavorite
        { initialCatalog with favorites := [movieA, movieB] } movieA) movieA).favorites
      = [movieB, movieA] ∧
    ([movieB, movieA] : List MovieSummary) ≠ [movieA, movieB] := by
  refine ⟨?_, by decide⟩
  decide

/-- C4 (amended): a double toggle restores the favorites membership
keyed by id, and the entries whose id differs from the toggled id are
exactly the original ones in their original order; when no favorite
carried the id of the movie the whole list is restored exactly, but when
one did, its entry is re-appended at the end. -/
theorem toggleFavorite_twice (s : CatalogState) (m : MovieSummary) :
    (∀ i : Int,
        (∃ x ∈ (toggleFavorite (toggleFavorite s m) m).favorites, x.id = i)
          ↔ (∃ x ∈ s.favorites, x.id = i)) ∧
    ((toggleFavorite (toggleFavorite s m) m).favorites.filter
        (fun fav => fav.id != m.id)
      = s.favorites.filter (fun fav => fav.id != m.id)) ∧
    ((∀ x ∈ s.favorites, x.id ≠ m.id) →
        (toggleFavorite (toggleFavorite s m) m).favorites = s.favorites) := by
  have hfav : (toggleFavorite (toggleFavorite s m) m).favorites
      = toggleFavoriteList (toggleFavoriteList s.favorites m) m := rfl
  rcases toggleFavoriteList_twice_cases s.favorites m with ⟨hany, heq⟩ | ⟨hany, heq⟩
  · rw [hfav, heq]
    exact ⟨fun i => Iff.rfl, rfl, fun _ => rfl⟩
  · rw [hfav, heq]
    obtain ⟨y, hy, hyid⟩ := List.any_eq_true.mp hany
    have hyid' : y.id = m.id := by simpa using hyid
    refine ⟨?_, ?_, ?_⟩
    · intro i
      constructor
      · rintro ⟨x, hx, hxid⟩
        rcases List.mem_append.mp hx with hx | hx
        · exact ⟨x, (List.mem_filter.mp hx).1, hxid⟩
        · simp only [List.mem_singleton] at hx
          subst hx
          exact ⟨y, hy, by rw [hyid', hxid]⟩
      · rintro ⟨x, hx, hxid⟩
        by_cases hi : i = m.id
        · exact ⟨m, List.mem_append.mpr (Or.inr (List.mem_singleton.mpr rfl)), hi.symm⟩
        · refine ⟨x, List.mem_append.mpr (Or.inl ?_), hxid⟩
          refine List.mem_filter.mpr ⟨hx, ?_⟩
          simp only [bne_iff_ne, ne_eq, decide_eq_true_eq]
          rw [hxid]
          exact hi
    · rw [List.filter_append]
      have h1 : ([m].filter (fun fav => fav.id != m.id)) = [] := by simp
      have h2 : ((s.favorites.filter (fun fav => fav.id != m.id)).filter
          (fun fav => fav.id != m.id)) = s.favorites.filter (fun fav => fav.id != m.id) := by
        rw [List.filter_eq_self]
        intro x hx
        exact (List.mem_filter.mp hx).2
      rw [h1, h2, List.append_nil]
    · intro hno
      exact absurd hyid' (hno y hy)

/-- Witness for `toggleFavorite_twice`: a movie not among the favorites,
toggled twice, leaves the list exactly as it was. -/
theorem toggleFavorite_twice_witness :
    (toggleFavorite (toggleFavorite
        { initialCatalog with favorites := [movieB] } movieA) movieA).favorites
      = [movieB] :=
  (toggleFavorite_twice { initialCatalog with favorites := [movieB] } movieA).2.2
    (by decide)

/-- C7 counterexample: logging in with the empty identity and reloading
does not restore that identity — the restore effect tests JavaScript
truthiness and the stored empty string is falsy, so the session stays
unauthenticated. -/
theorem login_restore_empty_counterexample :
    (restoreSession (reload (login initialAuth "" "anything"))).user = none ∧
    (none : Option String) ≠ some "" :=
  ⟨rfl, by decide⟩

/-- C7 (amended): for every NON-EMPTY identity and any password, login
followed by a reload and the restore effect yields a session whose
identity is the one passed to login. -/
theorem login_then_restore (s : AuthState) (username password : String)
    (h : username ≠ "") :
    (restoreSession (reload (login s username password))).user = some username := by
  simp [login, reload, initialAuth, restoreSession, h]

/-- Witness for `login_then_restore` at the identity alice. -/
theorem login_then_restore_witness :
    (restoreSession (reload (login initialAuth "alice" "anything"))).user = some "alice" :=
  login_then_restore initialAuth "alice" "anything" (by decide)
